import Mathlib

/-!
Shallow embedding of the timeoff-advisor retrieval-and-context-composition
pipeline (src/src/data/data_processor.py, src/src/retrieval/retriever.py,
src/src/retrieval/vector_store.py, src/src/agent/prompts.py,
src/src/agent/timeoff_advisor.py), together with theorems settling the
frozen claims about its natural-language specification.

Python dictionaries with a fixed key set per branch are modelled as
association lists (`List (String × _)`) or as structures of `Option`
fields, machine floats as rationals (`ℚ`, with a dedicated constructor
for NaN where pandas can produce one), and raising code as `Except`.
-/

/-! ## String utilities (Python substring / case operations) -/

/-- `leadsList n h` is true when `n` is an initial segment of `h`
(the check behind Python substring containment at one position). -/
def leadsList : List Char → List Char → Bool
  | [], _ => true
  | _ :: _, [] => false
  | a :: as, b :: bs => a == b && leadsList as bs

/-- `subList n h` is Python `n in h` on character lists. -/
def subList (n : List Char) : List Char → Bool
  | [] => leadsList n []
  | c :: rest => leadsList n (c :: rest) || subList n rest

/-- Python `needle in hay` for strings. -/
def inStr (needle hay : String) : Bool :=
  subList needle.data hay.data

/-- Python `str.lower()` (ASCII as used by the repository). -/
def lowerStr (s : String) : String :=
  String.mk (s.data.map Char.toLower)

/-- Python `str.upper()` (ASCII as used by the repository). -/
def upperStr (s : String) : String :=
  String.mk (s.data.map Char.toUpper)

/-- Python `any(word in ql for word in ws)`. -/
def hasAnyKW (ql : String) (ws : List String) : Bool :=
  ws.any (fun w => inStr w ql)

/-! ## Dates (datetime.strptime with format %Y-%m-%d, date.weekday) -/

/-- Gregorian leap-year test. -/
def isLeap (y : Nat) : Bool :=
  y % 4 == 0 && (y % 100 != 0 || y % 400 == 0)

/-- Days in month `m` (1-12) of year `y`. -/
def daysInMonth (y m : Nat) : Nat :=
  if m == 1 then 31 else if m == 2 then (if isLeap y then 29 else 28)
  else if m == 3 then 31 else if m == 4 then 30 else if m == 5 then 31
  else if m == 6 then 30 else if m == 7 then 31 else if m == 8 then 31
  else if m == 9 then 30 else if m == 10 then 31 else if m == 11 then 30
  else 31

/-- Days in the months strictly before month `m` of year `y`. -/
def daysBeforeMonth (y m : Nat) : Nat :=
  (List.range (m - 1)).foldl (fun acc i => acc + daysInMonth y (i + 1)) 0

/-- Days in the proleptic Gregorian calendar strictly before year `y`
(so `daysBeforeYear 1 = 0`, matching Python's ordinal 1 = 0001-01-01). -/
def daysBeforeYear (y : Nat) : Nat :=
  365 * (y - 1) + ((y - 1) / 4 - (y - 1) / 100 + (y - 1) / 400)

/-- `date(y, m, d).toordinal()`. -/
def toOrdinal (y m d : Nat) : Nat :=
  daysBeforeYear y + daysBeforeMonth y m + d

/-- `date.weekday()` from the ordinal: Monday = 0 … Sunday = 6. -/
def ordWeekday (o : Nat) : Nat :=
  (o + 6) % 7

/-- Split a character list on `-` (the shape `%Y-%m-%d` expects). -/
def splitDash : List Char → List (List Char)
  | [] => [[]]
  | c :: rest =>
    let parts := splitDash rest
    if c == '-' then [] :: parts
    else match parts with
      | [] => [[c]]
      | p :: ps => (c :: p) :: ps

/-- Parse a run of decimal digits; `none` when empty or non-digit. -/
def parseNatDigits : List Char → Option Nat
  | [] => none
  | cs =>
    if cs.all Char.isDigit then
      some (cs.foldl (fun acc c => acc * 10 + (c.toNat - '0'.toNat)) 0)
    else none

/-- `datetime.strptime(s, "%Y-%m-%d").date()` as year/month/day;
`none` models the `ValueError` strptime raises on malformed input. -/
def parseDate (s : String) : Option (Nat × Nat × Nat) :=
  match splitDash s.data with
  | [ys, ms, ds] =>
    match parseNatDigits ys, parseNatDigits ms, parseNatDigits ds with
    | some y, some m, some d =>
      if 1 ≤ m && m ≤ 12 && 1 ≤ d && d ≤ daysInMonth y m && 1 ≤ y then
        some (y, m, d)
      else none
    | _, _, _ => none
  | _ => none

/-- Date string to Python ordinal, when it parses. -/
def parseOrdinal (s : String) : Option Nat :=
  (parseDate s).map (fun t => toOrdinal t.1 t.2.1 t.2.2)

/-! ## Data model (the four sample tables of data_processor.py) -/

/-- A row of the `employees` DataFrame. -/
structure EmployeeRec where
  employee_id : String
  name : String
  department : String
  hire_date : String
  employment_status : String
deriving DecidableEq

/-- A row of the `leave_balances` DataFrame. -/
structure BalanceRec where
  employee_id : String
  pto_balance : ℚ
  sick_balance : ℚ
  personal_balance : ℚ
  last_updated : String
deriving DecidableEq

/-- A row of the `timeoff_requests` DataFrame
(`approved_by` is nullable in the sample data). -/
structure RequestRec where
  request_id : String
  employee_id : String
  request_type : String
  start_date : String
  end_date : String
  days_requested : ℚ
  status : String
  submitted_date : String
  approved_by : Option String
  comments : String
deriving DecidableEq

/-- A row of the `holidays` DataFrame. -/
structure HolidayRec where
  holiday_name : String
  date : String
  is_company_holiday : Bool
deriving DecidableEq

/-- The dictionary of DataFrames handled by `TimeOffDataProcessor`. -/
structure Data where
  employees : List EmployeeRec
  leave_balances : List BalanceRec
  timeoff_requests : List RequestRec
  holidays : List HolidayRec
deriving DecidableEq

/-- `TimeOffDataProcessor.create_sample_data`. -/
def create_sample_data : Data where
  employees := [
    ⟨"EMP001", "John Smith", "Engineering", "2020-01-15", "Full-time"⟩,
    ⟨"EMP002", "Jane Doe", "Marketing", "2019-03-20", "Full-time"⟩,
    ⟨"EMP003", "Mike Johnson", "Sales", "2021-06-10", "Full-time"⟩,
    ⟨"EMP004", "Sarah Wilson", "HR", "2018-11-05", "Full-time"⟩,
    ⟨"EMP005", "David Brown", "Finance", "2022-02-28", "Full-time"⟩]
  leave_balances := [
    ⟨"EMP001", 15.5, 8.0, 3.0, "2024-01-15"⟩,
    ⟨"EMP002", 22.0, 10.0, 5.0, "2024-01-15"⟩,
    ⟨"EMP003", 8.75, 5.5, 2.0, "2024-01-15"⟩,
    ⟨"EMP004", 30.0, 7.0, 4.0, "2024-01-15"⟩,
    ⟨"EMP005", 12.25, 9.5, 1.5, "2024-01-15"⟩]
  timeoff_requests := [
    ⟨"REQ001", "EMP001", "Vacation", "2024-02-15", "2024-02-20", 4.0,
      "Approved", "2024-01-10", some "Manager1", "Family vacation"⟩,
    ⟨"REQ002", "EMP002", "Sick", "2024-01-20", "2024-01-20", 1.0,
      "Approved", "2024-01-19", some "Manager2", "Not feeling well"⟩,
    ⟨"REQ003", "EMP003", "Personal", "2024-03-10", "2024-03-10", 1.0,
      "Pending", "2024-02-15", none, "Doctor appointment"⟩,
    ⟨"REQ004", "EMP004", "Vacation", "2024-04-01", "2024-04-05", 3.0,
      "Approved", "2024-03-01", some "Manager1", "Spring break"⟩,
    ⟨"REQ005", "EMP005", "Holiday", "2024-01-01", "2024-01-01", 1.0,
      "Approved", "2024-01-01", some "System", "New Year holiday"⟩]
  holidays := [
    ⟨"New Year's Day", "2024-01-01", true⟩,
    ⟨"Martin Luther King Jr. Day", "2024-01-15", true⟩,
    ⟨"Memorial Day", "2024-05-27", true⟩,
    ⟨"Independence Day", "2024-07-04", true⟩,
    ⟨"Labor Day", "2024-09-02", true⟩,
    ⟨"Thanksgiving Day", "2024-11-28", true⟩,
    ⟨"Christmas Day", "2024-12-25", true⟩]

/-! ## calculate_working_days (data_processor.py lines 165-192) -/

/-- The `while current <= end` loop of `calculate_working_days`:
counts ordinals in `[s, e]` that are Mon-Fri and not holiday dates. -/
def countWorkingDays (s e : Nat) (holidayOrds : List Nat) : Nat :=
  ((List.range' s (e + 1 - s)).filter
    (fun d => ordWeekday d < 5 && !(holidayOrds.contains d))).length

/-- `TimeOffDataProcessor.calculate_working_days`: parses both endpoint
dates and the holiday table's dates with strptime/to_datetime (a parse
failure raises, modelled as `.error "ValueError"`), then counts weekday
non-holiday dates from start to end inclusive. -/
def calculate_working_days (start_date end_date : String)
    (holidays : List HolidayRec) : Except String Nat := do
  let s ← match parseOrdinal start_date with
    | some o => Except.ok o
    | none => Except.error "ValueError"
  let e ← match parseOrdinal end_date with
    | some o => Except.ok o
    | none => Except.error "ValueError"
  let hs ← holidays.mapM (fun h => match parseOrdinal h.date with
    | some o => Except.ok o
    | none => Except.error "ValueError")
  Except.ok (countWorkingDays s e hs)


/-! ## calculate_leave_statistics (data_processor.py lines 98-126) -/

/-- A Python scalar stored in the statistics dictionary: an int, a float,
pandas' float NaN (mean of an empty column), a string, or `None`. -/
inductive PyVal where
  | pnat (n : Nat)
  | pfloat (q : ℚ)
  | pnan
  | pstr (s : String)
  | pnone
deriving DecidableEq

/-- `Series.mean()`: NaN on an empty column, else the arithmetic mean. -/
def listMean (xs : List ℚ) : PyVal :=
  match xs with
  | [] => PyVal.pnan
  | _ => PyVal.pfloat (xs.sum / xs.length)

/-- The largest multiplicity any element of `xs` attains. -/
def maxCnt (xs : List String) : Nat :=
  xs.foldr (fun x acc => max (xs.count x) acc) 0

/-- Least element of a string list, `none` for the empty list. -/
def strMin : List String → Option String
  | [] => none
  | x :: rest =>
    match strMin rest with
    | none => some x
    | some a => some (if x < a then x else a)

/-- `Series.mode().iloc[0]`: pandas returns the modal values sorted
ascending, so the first is the least value of maximal multiplicity. -/
def seriesModeHead (xs : List String) : Option String :=
  strMin (xs.filter (fun x => xs.count x == maxCnt xs))

/-- `seriesModeHead` with the (unreachable for non-empty series)
default `""` standing in for `.iloc[0]`'s partiality. -/
def seriesModeHeadD (xs : List String) : String :=
  (seriesModeHead xs).getD ""

/-- `TimeOffDataProcessor.calculate_leave_statistics`: the `stats`
dictionary, keys in insertion order.  (The merged `employee_stats`
frame computed by the source is unused in its output and is omitted.) -/
def calculate_leave_statistics (data : Data) : List (String × PyVal) :=
  [("total_employees", PyVal.pnat data.employees.length),
   ("average_pto_balance", listMean (data.leave_balances.map (·.pto_balance))),
   ("total_pto_days", PyVal.pfloat (data.leave_balances.map (·.pto_balance)).sum),
   ("pending_requests", PyVal.pnat
      (data.timeoff_requests.filter (·.status == "Pending")).length),
   ("approved_requests", PyVal.pnat
      (data.timeoff_requests.filter (·.status == "Approved")).length),
   ("total_requests", PyVal.pnat data.timeoff_requests.length),
   ("most_requested_type",
      if data.timeoff_requests.isEmpty then PyVal.pnone
      else PyVal.pstr (seriesModeHeadD (data.timeoff_requests.map (·.request_type))))]

/-! ## get_employee_leave_summary (data_processor.py lines 128-163) -/

/-- The summary dictionary for a found employee; `leave_balance` is
`none` when the balance frame has no row for the id (the source's `{}`). -/
structure EmpSummary where
  employee_info : EmployeeRec
  leave_balance : Option BalanceRec
  total_requests : Nat
  approved_requests : Nat
  pending_requests : Nat
  recent_requests : List RequestRec
deriving DecidableEq

/-- Result of `get_employee_leave_summary`: either the summary or the
`{'error': 'Employee not found'}` dictionary. -/
inductive EmpSummaryResult where
  | notFound
  | found (s : EmpSummary)
deriving DecidableEq

/-- `TimeOffDataProcessor.get_employee_leave_summary`. -/
def get_employee_leave_summary (employee_id : String) (data : Data) :
    EmpSummaryResult :=
  match data.employees.filter (·.employee_id == employee_id) with
  | [] => EmpSummaryResult.notFound
  | e :: _ =>
    let balances := data.leave_balances.filter (·.employee_id == employee_id)
    let reqs := data.timeoff_requests.filter (·.employee_id == employee_id)
    EmpSummaryResult.found
      { employee_info := e
        leave_balance := balances.head?
        total_requests := reqs.length
        approved_requests := (reqs.filter (·.status == "Approved")).length
        pending_requests := (reqs.filter (·.status == "Pending")).length
        recent_requests := reqs.take 5 }

/-! Specification-side reading of the employee summary ("the join of
that employee's row, its balance row, and its 5 most recent requests"),
for the refinement comparison in claim C6. -/

/-- Insert a request into a list kept most-recent-first. -/
def insertByDate (r : RequestRec) : List RequestRec → List RequestRec
  | [] => [r]
  | x :: xs =>
    if r.submitted_date < x.submitted_date then x :: insertByDate r xs
    else r :: x :: xs

/-- Sort requests most-recently-submitted first. -/
def sortByRecency : List RequestRec → List RequestRec
  | [] => []
  | r :: rs => insertByDate r (sortByRecency rs)

/-- The spec's join: the employee's row, its first (or absent) balance
row, approved/pending/total counts, and its 5 most recent requests. -/
def specEmployeeSummary (employee_id : String) (data : Data) :
    EmpSummaryResult :=
  match data.employees.filter (·.employee_id == employee_id) with
  | [] => EmpSummaryResult.notFound
  | e :: _ =>
    let reqs := data.timeoff_requests.filter (·.employee_id == employee_id)
    EmpSummaryResult.found
      { employee_info := e
        leave_balance :=
          (data.leave_balances.filter (·.employee_id == employee_id)).head?
        total_requests := reqs.length
        approved_requests := (reqs.filter (·.status == "Approved")).length
        pending_requests := (reqs.filter (·.status == "Pending")).length
        recent_requests := (sortByRecency reqs).take 5 }

/-! ## Vector store (vector_store.py lines 101-136) -/

/-- A langchain document; only `page_content` is read by this core. -/
structure Doc where
  page_content : String
deriving DecidableEq

/-- The underlying `Chroma.similarity_search_with_score` collaborator:
given a query and `k`, either raises or returns scored documents
(the score is a distance, smaller = more similar). -/
def RawSearch : Type :=
  String → Nat → Except String (List (Doc × ℚ))

/-- `WorkdayVectorStore.similarity_search`: `[]` when the store is
uninitialized (`self.vector_store` is `None`); otherwise query the
backend with `k` (caller's `k` or the configured `top_k`), return `[]`
if the backend raises, and keep documents whose distance is at most
`1 - similarity_threshold`. -/
def similarity_search (store : Option RawSearch) (threshold : ℚ)
    (top_k : Nat) (query : String) (k? : Option Nat) : List Doc :=
  match store with
  | none => []
  | some raw =>
    let k := k?.getD top_k
    match raw query k with
    | Except.error _ => []
    | Except.ok results =>
      (results.filter (fun p => p.2 ≤ 1 - threshold)).map Prod.fst

/-! ## Retriever (retriever.py) -/

/-- `policy_summary` payload (retriever.py lines 108-112). -/
structure PolicySummary where
  total_employees : Nat
  average_pto : PyVal
  total_requests : Nat
deriving DecidableEq

/-- A value of the `data_results` dictionary built by
`WorkdayRetriever._extract_relevant_data`. -/
inductive DataVal where
  | stats (s : List (String × PyVal))
  | empSummary (e : EmpSummaryResult)
  | hols (hs : List HolidayRec)
  | reqs (rs : List RequestRec)
  | polSummary (p : PolicySummary)
  | docs (ds : List Doc)
deriving DecidableEq

/-- `re.search(r'emp\d+', l)` at one position: the match if `l` starts
with `emp` followed by at least one digit (maximal digit run). -/
def empHere : List Char → Option (List Char)
  | 'e' :: 'm' :: 'p' :: c :: rest =>
    if c.isDigit then some ('e' :: 'm' :: 'p' :: c :: rest.takeWhile Char.isDigit)
    else none
  | _ => none

/-- `re.search(r'emp\d+', l)`: first match scanning left to right. -/
def searchEmp : List Char → Option (List Char)
  | [] => none
  | c :: rest =>
    match empHere (c :: rest) with
    | some m => some m
    | none => searchEmp rest

/-- `WorkdayRetriever._extract_relevant_data`, parameterized by the
dataset (the source always passes `self.sample_data`, which is
`create_sample_data()`). Each keyword check appends its entry to the
`data_results` dictionary independently of the others. -/
def extract_relevant_data (data : Data) (query : String) :
    List (String × DataVal) :=
  let ql := lowerStr query
  (if hasAnyKW ql ["employee", "balance", "pto", "leave"] then
    [("leave_statistics", DataVal.stats (calculate_leave_statistics data))]
   else [])
  ++ (if inStr "emp" ql || inStr "employee" ql then
       match searchEmp ql.data with
       | some m =>
         [("employee_summary", DataVal.empSummary
            (get_employee_leave_summary (upperStr (String.mk m)) data))]
       | none => []
      else [])
  ++ (if hasAnyKW ql ["holiday", "holidays", "christmas", "thanksgiving"] then
       [("holidays", DataVal.hols data.holidays)]
      else [])
  ++ (if hasAnyKW ql ["request", "approval", "pending", "approved"] then
       [("recent_requests", DataVal.reqs (data.timeoff_requests.take 10))]
      else [])
  ++ (if hasAnyKW ql ["policy", "rules", "guidelines"] then
       [("policy_summary", DataVal.polSummary
          { total_employees := data.employees.length
            average_pto := listMean (data.leave_balances.map (·.pto_balance))
            total_requests := data.timeoff_requests.length })]
      else [])

/-- The dictionary `WorkdayRetriever.retrieve_relevant_documents`
returns: five keys on success, only `error` on the caught-exception
path (each field is `none` when its key is absent from the dict). -/
structure RetrieveResults where
  documents : Option (List Doc)
  data : Option (List (String × DataVal))
  query : Option String
  total_documents : Option Nat
  total_data_entries : Option Nat
  error : Option String
deriving DecidableEq

/-- `WorkdayRetriever.retrieve_relevant_documents`: the vector-store
call (the only raising step of the `try` block; `_extract_relevant_data`
over the sample data is total) is passed as an `Except` value.  On
success all five keys are present; a caught exception yields the
`{'error': str(e)}` dictionary. -/
def retrieve_relevant_documents (search : Except String (List Doc))
    (query : String) : RetrieveResults :=
  match search with
  | Except.error e =>
    { documents := none, data := none, query := none,
      total_documents := none, total_data_entries := none, error := some e }
  | Except.ok documents =>
    let data_results := extract_relevant_data create_sample_data query
    { documents := some documents
      data := some data_results
      query := some query
      total_documents := some documents.length
      total_data_entries := some data_results.length
      error := none }

/-! ## format_retrieved_information (retriever.py lines 116-169) -/

/-- Rendering of a scalar into an f-string slot.  Decimal rendering of
floats (and the `:.1f` width) is abstracted as the rational's canonical
string: no claim depends on the digits, only on which keys are read. -/
def pyValStr : PyVal → String
  | PyVal.pnat n => toString n
  | PyVal.pfloat q => toString q
  | PyVal.pnan => "nan"
  | PyVal.pstr s => s
  | PyVal.pnone => "None"

/-- Python `dict[key]`: the value, or a raised `KeyError key`. -/
def pyLookup (key : String) (d : List (String × PyVal)) : Except String PyVal :=
  match d.lookup key with
  | some v => Except.ok v
  | none => Except.error key

/-- Python `str.strip()`. -/
def stripStr (s : String) : String :=
  String.mk (((s.data.dropWhile Char.isWhitespace).reverse.dropWhile
    Char.isWhitespace).reverse)

/-- One numbered line of the documents block: content truncated to 200
characters (with `"..."`) when the raw content exceeds 200 characters. -/
def docLine (i : Nat) (d : Doc) : String :=
  let content :=
    if d.page_content.data.length > 200 then
      String.mk ((stripStr d.page_content).data.take 200) ++ "..."
    else stripStr d.page_content
  toString i ++ ". " ++ content

/-- `WorkdayRetriever.format_retrieved_information`.  A missing
dictionary key inside an f-string is the raised `KeyError` (modelled as
`Except.error key`); it aborts the formatting exactly where Python
would. -/
def format_retrieved_information (results : RetrieveResults) :
    Except String String :=
  match results.error with
  | some e => Except.ok ("Error retrieving information: " ++ e)
  | none =>
    let docLines : List String :=
      match results.documents with
      | some ds =>
        if ds.isEmpty then []
        else "📄 Relevant Documentation:" ::
          ((ds.take 3).enumFrom 1).map (fun p => docLine p.1 p.2)
      | none => []
    let data := results.data.getD []
    do
    let statLines : List String ←
      match data.lookup "leave_statistics" with
      | some (DataVal.stats st) => do
        let te ← pyLookup "total_employees" st
        let ap ← pyLookup "average_pto" st
        let pr ← pyLookup "pending_requests" st
        let ar ← pyLookup "approved_requests" st
        Except.ok ["\n📊 Leave Statistics:",
          "• Total Employees: " ++ pyValStr te,
          "• Average PTO Balance: " ++ pyValStr ap ++ " days",
          "• Pending Requests: " ++ pyValStr pr,
          "• Approved Requests: " ++ pyValStr ar]
      | _ => Except.ok []
    let empLines : List String :=
      match data.lookup "employee_summary" with
      | some (DataVal.empSummary (EmpSummaryResult.found s)) =>
        ["\n👤 Employee Summary:",
         "• Name: " ++ s.employee_info.name,
         "• Department: " ++ s.employee_info.department] ++
        (match s.leave_balance with
         | some b =>
           ["• PTO Balance: " ++ toString b.pto_balance ++ " days",
            "• Sick Balance: " ++ toString b.sick_balance ++ " days"]
         | none => [])
      | _ => []
    let holLines : List String :=
      match data.lookup "holidays" with
      | some (DataVal.hols hs) =>
        "\n🎉 Company Holidays:" ::
          (hs.take 5).map (fun h => "• " ++ h.holiday_name ++ ": " ++ h.date)
      | _ => []
    let reqLines : List String :=
      match data.lookup "recent_requests" with
      | some (DataVal.reqs rs) =>
        "\n📋 Recent Time-Off Requests:" ::
          (rs.take 3).map (fun r =>
            "• " ++ r.request_type ++ ": " ++ r.start_date ++ " to " ++
            r.end_date ++ " (" ++ r.status ++ ")")
      | _ => []
    let all := docLines ++ statLines ++ empLines ++ holLines ++ reqLines
    Except.ok (if all.isEmpty then "No relevant information found."
               else String.intercalate "\n" all)

/-- `WorkdayRetriever.get_context_for_query`: retrieve, then format. -/
def get_context_for_query (search : Except String (List Doc))
    (query : String) : Except String String :=
  format_retrieved_information (retrieve_relevant_documents search query)

/-! ## Prompt selection (prompts.py lines 156-185) -/

/-- The six prompt templates `get_prompt_for_query` can return. -/
inductive PromptKind where
  | leaveBalance
  | policy
  | requestProcess
  | holiday
  | dataAnalysis
  | qa
deriving DecidableEq

/-- `get_prompt_for_query` (prompts.py): the first matching keyword
rule, evaluated top to bottom, picks the template. -/
def get_prompt_for_query (query : String) : PromptKind :=
  let ql := lowerStr query
  if hasAnyKW ql ["balance", "pto", "leave", "sick", "personal"] then
    PromptKind.leaveBalance
  else if hasAnyKW ql ["policy", "rules", "guidelines", "entitled"] then
    PromptKind.policy
  else if hasAnyKW ql ["request", "submit", "approval", "process", "how to"] then
    PromptKind.requestProcess
  else if hasAnyKW ql ["holiday", "holidays", "christmas", "thanksgiving"] then
    PromptKind.holiday
  else if hasAnyKW ql ["statistics", "data", "summary", "report"] then
    PromptKind.dataAnalysis
  else PromptKind.qa

/-! ## format_context_for_prompt (prompts.py lines 189-244) and the
advisor call site (timeoff_advisor.py lines 171-212) -/

/-- `context_data.get('documents', [])`: the docs list when the key is
present (it only ever holds a document list), else the empty list. -/
def ctxDocs (v : Option DataVal) : List Doc :=
  match v with
  | some (DataVal.docs ds) => ds
  | _ => []

/-- `format_context_for_prompt`.  A raised `KeyError` inside the
data-summary f-string is `Except.error key`. -/
def format_context_for_prompt (prompt_type : String)
    (context_data : List (String × DataVal)) : Except String String :=
  if prompt_type == "employee_data" then
    match context_data.lookup "employee_summary" with
    | some (DataVal.empSummary (EmpSummaryResult.found s)) =>
      Except.ok ("\nEmployee: " ++ s.employee_info.name ++
        "\nDepartment: " ++ s.employee_info.department ++
        "\nPTO Balance: " ++
          (match s.leave_balance with
           | some b => toString b.pto_balance
           | none => "N/A") ++ " days" ++
        "\nSick Balance: " ++
          (match s.leave_balance with
           | some b => toString b.sick_balance
           | none => "N/A") ++ " days" ++
        "\nPersonal Balance: " ++
          (match s.leave_balance with
           | some b => toString b.personal_balance
           | none => "N/A") ++ " days" ++
        "\nTotal Requests: " ++ toString s.total_requests ++
        "\nPending Requests: " ++ toString s.pending_requests ++ "\n")
    | _ => Except.ok "Employee data not available."
  else if prompt_type == "policy_docs" then
    Except.ok (String.intercalate "\n\n"
      (((ctxDocs (context_data.lookup "documents")).take 3).map
        (·.page_content)))
  else if prompt_type == "process_docs" then
    Except.ok (String.intercalate "\n\n"
      (((ctxDocs (context_data.lookup "documents")).take 2).map
        (·.page_content)))
  else if prompt_type == "holiday_data" then
    match context_data.lookup "holidays" with
    | some (DataVal.hols hs) =>
      Except.ok (String.intercalate "\n"
        (hs.map (fun h => h.holiday_name ++ ": " ++ h.date)))
    | _ => Except.ok "Holiday data not available."
  else if prompt_type == "data_summary" then
    match context_data.lookup "leave_statistics" with
    | some (DataVal.stats st) => do
      let te ← pyLookup "total_employees" st
      let ap ← pyLookup "average_pto" st
      let tp ← pyLookup "total_pto_days" st
      let pr ← pyLookup "pending_requests" st
      let ar ← pyLookup "approved_requests" st
      Except.ok ("\nTotal Employees: " ++ pyValStr te ++
        "\nAverage PTO Balance: " ++ pyValStr ap ++ " days" ++
        "\nTotal PTO Days: " ++ pyValStr tp ++
        "\nPending Requests: " ++ pyValStr pr ++
        "\nApproved Requests: " ++ pyValStr ar ++ "\n")
    | _ => Except.ok "Data summary not available."
  else
    Except.ok (String.intercalate "\n\n"
      (((ctxDocs (context_data.lookup "documents")).take 3).map
        (·.page_content)))

/-- The `context_key` chosen by the keyword cascade of
`TimeOffAdvisor._select_chain_and_format_context` (the selected chain
is in one-to-one correspondence with this key). -/
def chainContextKey (query : String) : String :=
  let ql := lowerStr query
  if hasAnyKW ql ["balance", "pto", "leave", "sick", "personal"] then
    "employee_data"
  else if hasAnyKW ql ["policy", "rules", "guidelines", "entitled"] then
    "policy_docs"
  else if hasAnyKW ql ["request", "submit", "approval", "process", "how to"] then
    "process_docs"
  else if hasAnyKW ql ["holiday", "holidays", "christmas", "thanksgiving"] then
    "holiday_data"
  else if hasAnyKW ql ["statistics", "data", "summary", "report"] then
    "data_summary"
  else "context"

/-- `TimeOffAdvisor._select_chain_and_format_context`: picks the
context key by the cascade above and formats
`retrieval_results.get('data', {})` — only the `data` sub-dictionary —
through `format_context_for_prompt`. -/
def select_chain_and_format_context (query : String)
    (retrieval_results : RetrieveResults) : String × Except String String :=
  let key := chainContextKey query
  (key, format_context_for_prompt key (retrieval_results.data.getD []))

/-! ## Helper lemmas -/

theorem empHere_leads {l m : List Char} (h : empHere l = some m) :
    leadsList ['e', 'm', 'p'] l = true := by
  unfold empHere at h
  split at h
  · rfl
  · exact absurd h (by simp)

theorem searchEmp_subList_emp {l m : List Char} (h : searchEmp l = some m) :
    subList ['e', 'm', 'p'] l = true := by
  induction l with
  | nil => simp [searchEmp] at h
  | cons c rest ih =>
    rw [searchEmp] at h
    match hh : empHere (c :: rest) with
    | some m0 =>
      have := empHere_leads hh
      simp [subList, this]
    | none =>
      rw [hh] at h
      simp [subList, ih h]

theorem foldr_max_le {α : Type} (f : α → Nat) (l : List α) :
    ∀ y ∈ l, f y ≤ l.foldr (fun x acc => max (f x) acc) 0 := by
  induction l with
  | nil => simp
  | cons a l ih =>
    intro y hy
    rcases List.mem_cons.mp hy with h | h
    · subst h; exact le_max_left _ _
    · exact le_trans (ih y h) (le_max_right _ _)

theorem foldr_max_attain {α : Type} (f : α → Nat) (l : List α) (hne : l ≠ []) :
    ∃ x ∈ l, l.foldr (fun x acc => max (f x) acc) 0 = f x := by
  induction l with
  | nil => exact absurd rfl hne
  | cons a l ih =>
    match l with
    | [] => exact ⟨a, List.mem_singleton_self a, Nat.max_zero (f a)⟩
    | b :: l' =>
      obtain ⟨x, hx, hfx⟩ := ih (by simp)
      rcases le_total ((b :: l').foldr (fun x acc => max (f x) acc) 0) (f a) with
        hle | hle
      · exact ⟨a, List.mem_cons_self a _, max_eq_left hle⟩
      · refine ⟨x, List.mem_cons_of_mem a hx, ?_⟩
        rw [List.foldr_cons, max_eq_right hle]
        exact hfx

theorem strMin_mem {l : List String} {m : String} (h : strMin l = some m) :
    m ∈ l := by
  induction l generalizing m with
  | nil => simp [strMin] at h
  | cons x rest ih =>
    rw [strMin] at h
    match hr : strMin rest with
    | none =>
      rw [hr] at h
      exact Option.some_inj.mp h ▸ List.mem_cons_self x rest
    | some a =>
      rw [hr] at h
      rcases Option.some_inj.mp h with h'
      by_cases hxa : x < a
      · simp [hxa] at h'
        exact h' ▸ List.mem_cons_self x rest
      · simp [hxa] at h'
        exact h' ▸ List.mem_cons_of_mem x (ih hr)

theorem strMin_isSome {l : List String} (hne : l ≠ []) :
    ∃ m, strMin l = some m := by
  match l with
  | [] => exact absurd rfl hne
  | x :: rest =>
    rw [strMin]
    match strMin rest with
    | none => exact ⟨x, rfl⟩
    | some a => exact ⟨if x < a then x else a, rfl⟩

/-- For a non-empty series, `seriesModeHead` returns a member attaining
the maximal multiplicity. -/
theorem seriesModeHead_spec (xs : List String) (hne : xs ≠ []) :
    ∃ m, seriesModeHead xs = some m ∧ m ∈ xs ∧ xs.count m = maxCnt xs := by
  have hattain : ∃ x ∈ xs, maxCnt xs = xs.count x :=
    foldr_max_attain (fun x => xs.count x) xs hne
  obtain ⟨x, hx, hcx⟩ := hattain
  have hxfil : x ∈ xs.filter (fun x => xs.count x == maxCnt xs) :=
    List.mem_filter.mpr ⟨hx, by simp [hcx]⟩
  have hfilne : xs.filter (fun x => xs.count x == maxCnt xs) ≠ [] :=
    fun hemp => by simp [hemp] at hxfil
  obtain ⟨m, hm⟩ := strMin_isSome hfilne
  refine ⟨m, hm, ?_, ?_⟩
  · exact (List.mem_filter.mp (strMin_mem hm)).1
  · have hbeq := (List.mem_filter.mp (strMin_mem hm)).2
    exact Nat.eq_of_beq_eq_true (by simpa using hbeq)

/-- `List.lookup` distributes over append. -/
theorem lookup_append {β : Type} (k : String)
    (l₁ l₂ : List (String × β)) :
    (l₁ ++ l₂).lookup k = ((l₁.lookup k).or (l₂.lookup k)) := by
  induction l₁ with
  | nil => simp [List.lookup]
  | cons a l ih =>
    rw [List.cons_append, List.lookup, List.lookup]
    by_cases h : k == a.1
    · simp [h]
    · simp only [Bool.not_eq_true] at h
      simp [h, ih]

/-- `mapM` over `Except` succeeds when every element maps to `ok`. -/
theorem mapM_parse_ok (hs : List HolidayRec)
    (h : ∀ x ∈ hs, (parseOrdinal x.date).isSome) :
    ∃ os, hs.mapM (fun x => match parseOrdinal x.date with
      | some o => Except.ok o
      | none => (Except.error "ValueError" : Except String Nat)) =
      Except.ok os := by
  induction hs with
  | nil => exact ⟨[], rfl⟩
  | cons a l ih =>
    obtain ⟨o, ho⟩ := Option.isSome_iff_exists.mp (h a (List.mem_cons_self a l))
    obtain ⟨os, hos⟩ := ih (fun x hx => h x (List.mem_cons_of_mem a hx))
    refine ⟨o :: os, ?_⟩
    rw [List.mapM_cons, ho, hos]
    rfl

/-! ## Claim C1 -/

/-- C1 counterexample: on start 2024-01-01, end 2024-01-05, and a
holiday table containing 2024-01-01 (the sample table),
`calculate_working_days` does not return 3.  2024-01-01 is a Monday
and the only holiday in range, so Tue-Fri remain. -/
theorem c1_not_three :
    calculate_working_days "2024-01-01" "2024-01-05"
      create_sample_data.holidays ≠ Except.ok 3 := by
  intro h
  have h4 : calculate_working_days "2024-01-01" "2024-01-05"
      create_sample_data.holidays = Except.ok 4 := by rfl
  rw [h4] at h
  injection h with h'
  omega

/-- C1 amended: for start 2024-01-01, end 2024-01-05, and a holiday
table containing 2024-01-01, `calculate_working_days` returns 4: the
Monday holiday is excluded and the four weekdays Tue-Fri are counted. -/
theorem c1_working_days_is_four :
    calculate_working_days "2024-01-01" "2024-01-05"
      create_sample_data.holidays = Except.ok 4 := by rfl

/-! ## Claim C2 -/

/-- C2 counterexample: with end_date < start_date the function returns
`ok 0` — it raises no `InvalidRange` (or any other) error. -/
theorem c2_reversed_range_is_ok_zero :
    calculate_working_days "2024-01-05" "2024-01-01"
      create_sample_data.holidays = Except.ok 0 ∧
    ∀ msg : String, calculate_working_days "2024-01-05" "2024-01-01"
      create_sample_data.holidays ≠ Except.error msg := by
  refine ⟨rfl, fun msg h => ?_⟩
  rw [show calculate_working_days "2024-01-05" "2024-01-01"
      create_sample_data.holidays = Except.ok 0 from rfl] at h
  exact Except.noConfusion h

/-- C2 amended: `calculate_working_days` performs no end-before-start
validation: whenever both endpoint dates parse, the end precedes the
start, and the holiday dates parse, it returns 0 (the loop body never
runs) instead of failing; its only input-validation failures are the
`ValueError`s strptime raises on malformed dates. -/
theorem c2_reversed_range_returns_zero (s e : String)
    (hs : List HolidayRec) (os oe : Nat)
    (hps : parseOrdinal s = some os) (hpe : parseOrdinal e = some oe)
    (hlt : oe < os) (hh : ∀ x ∈ hs, (parseOrdinal x.date).isSome) :
    calculate_working_days s e hs = Except.ok 0 := by
  obtain ⟨ords, hords⟩ := mapM_parse_ok hs hh
  unfold calculate_working_days
  rw [hps, hpe, hords]
  show Except.ok (countWorkingDays os oe ords) = Except.ok 0
  unfold countWorkingDays
  rw [show oe + 1 - os = 0 from by omega]
  rfl

/-- C2 witness: a concrete reversed range (2024-03-10 down to
2024-03-05) on the sample holiday table yields 0. -/
theorem c2_reversed_range_returns_zero_witness :
    calculate_working_days "2024-03-10" "2024-03-05"
      create_sample_data.holidays = Except.ok 0 :=
  c2_reversed_range_returns_zero "2024-03-10" "2024-03-05"
    create_sample_data.holidays 738955 738950 rfl rfl (by omega) (by decide)

/-! ## Claim C3 -/

/-- C3 counterexample: on an internal retrieval error the returned
dictionary is `{'error': message}` — it has no `documents` key and no
`data` key, so it is not a result with `documents = []` and
`data = {'error': message}`. -/
theorem c3_error_result_lacks_documents_and_data :
    (retrieve_relevant_documents (Except.error "boom") "hello").documents
        = none ∧
    (retrieve_relevant_documents (Except.error "boom") "hello").data = none ∧
    (retrieve_relevant_documents (Except.error "boom") "hello").error
        = some "boom" :=
  ⟨rfl, rfl, rfl⟩

/-- C3 amended: `retrieve_relevant_documents` never raises (the whole
body is inside `try/except Exception`, and the embedding is total); an
internal error is surfaced as the flat dictionary `{'error': message}`,
with the `documents`, `data`, `query` and count keys all absent rather
than as `documents = []` plus `data = {'error': message}`. -/
theorem c3_error_result_shape (msg q : String) :
    retrieve_relevant_documents (Except.error msg) q =
      { documents := none, data := none, query := none,
        total_documents := none, total_data_entries := none,
        error := some msg } := rfl

/-! ## Claim C5 -/

/-- C5 counterexample: "vacation" is claimed to be a Balance keyword,
but at both classification call sites (`get_prompt_for_query` and the
advisor's chain selection) the query "vacation" matches no rule and
classifies as the generic QA category, not Balance. -/
theorem c5_vacation_is_not_balance :
    get_prompt_for_query "vacation" = PromptKind.qa ∧
    chainContextKey "vacation" = "context" ∧
    PromptKind.qa ≠ PromptKind.leaveBalance ∧
    ("context" : String) ≠ "employee_data" :=
  ⟨by decide, by decide, by decide, by decide⟩

/-- C5 amended: the Balance rule is checked first at both call sites,
but its keyword set is {balance, pto, leave, sick, personal} (without
vacation, "time off", remaining, available): every query containing one
of those five as a case-insensitive substring classifies as Balance at
both call sites, even when it also contains Policy or Process
keywords. -/
theorem c5_balance_first_match (q : String)
    (h : hasAnyKW (lowerStr q)
      ["balance", "pto", "leave", "sick", "personal"] = true) :
    get_prompt_for_query q = PromptKind.leaveBalance ∧
    chainContextKey q = "employee_data" := by
  constructor <;> simp [get_prompt_for_query, chainContextKey, h]

/-- C5 witness: "policy pto" contains both a Policy keyword and a
Balance keyword; Balance wins at both call sites. -/
theorem c5_balance_first_match_witness :
    get_prompt_for_query "policy pto" = PromptKind.leaveBalance ∧
    chainContextKey "policy pto" = "employee_data" :=
  c5_balance_first_match "policy pto" (by decide)

/-! ## Claim C7 -/

/-- C7: `calculate_leave_statistics` on a dataset with an empty
request table yields `most_requested_type = None` (no exception — the
embedding is total and the `.mode().iloc[0]` access is guarded by the
emptiness check); on a non-empty table the value is a mode of
`request_type` over all requests. -/
theorem c7_most_requested_type (d : Data) :
    (d.timeoff_requests = [] →
      (calculate_leave_statistics d).lookup "most_requested_type"
        = some PyVal.pnone) ∧
    (d.timeoff_requests ≠ [] →
      ∃ m, (calculate_leave_statistics d).lookup "most_requested_type"
          = some (PyVal.pstr m) ∧
        m ∈ d.timeoff_requests.map (·.request_type) ∧
        ∀ t ∈ d.timeoff_requests.map (·.request_type),
          (d.timeoff_requests.map (·.request_type)).count t
            ≤ (d.timeoff_requests.map (·.request_type)).count m) := by
  have hlook : (calculate_leave_statistics d).lookup "most_requested_type"
      = some (if d.timeoff_requests.isEmpty then PyVal.pnone
          else PyVal.pstr
            (seriesModeHeadD (d.timeoff_requests.map (·.request_type)))) :=
    rfl
  constructor
  · intro h
    rw [hlook, h]
    rfl
  · intro h
    have htne : d.timeoff_requests.map (·.request_type) ≠ [] :=
      fun hemp => h (List.map_eq_nil_iff.mp hemp)
    obtain ⟨m, hm, hmem, hcnt⟩ :=
      seriesModeHead_spec (d.timeoff_requests.map (·.request_type)) htne
    have hie : d.timeoff_requests.isEmpty = false := by
      cases hreq : d.timeoff_requests with
      | nil => exact absurd hreq h
      | cons a l => rfl
    refine ⟨m, ?_, hmem, ?_⟩
    · rw [hlook, hie]
      simp [seriesModeHeadD, hm]
    · intro t ht
      have hle := foldr_max_le
        (fun x => (d.timeoff_requests.map (·.request_type)).count x)
        (d.timeoff_requests.map (·.request_type)) t ht
      exact hcnt ▸ hle

/-- C7 witness: the sample dataset with its request table emptied
yields `None`; the sample dataset itself yields the mode
("Vacation", multiplicity 2). -/
theorem c7_most_requested_type_witness :
    ((calculate_leave_statistics
        { create_sample_data with timeoff_requests := [] }).lookup
        "most_requested_type" = some PyVal.pnone) ∧
    (∃ m, (calculate_leave_statistics create_sample_data).lookup
        "most_requested_type" = some (PyVal.pstr m) ∧
      m ∈ create_sample_data.timeoff_requests.map (·.request_type) ∧
      ∀ t ∈ create_sample_data.timeoff_requests.map (·.request_type),
        (create_sample_data.timeoff_requests.map (·.request_type)).count t
          ≤ (create_sample_data.timeoff_requests.map (·.request_type)).count m) :=
  ⟨(c7_most_requested_type
      { create_sample_data with timeoff_requests := [] }).1 rfl,
   (c7_most_requested_type create_sample_data).2 (by decide)⟩

/-! ## Claim C9 -/

/-- C9: `similarity_search` returns at most `k` documents (the backend
contract delivers at most `k` scored results), each kept document has a
score within the distance cutoff `1 - similarity_threshold` (that is,
similarity at least the configured threshold); an uninitialized store,
a raising backend, and an empty index all yield `[]`, never an error. -/
theorem c9_similarity_search_bounds (threshold : ℚ) (top_k : Nat)
    (query : String) (k? : Option Nat) :
    similarity_search none threshold top_k query k? = [] ∧
    (∀ (raw : RawSearch) (e : String),
      raw query (k?.getD top_k) = Except.error e →
      similarity_search (some raw) threshold top_k query k? = []) ∧
    (∀ raw : RawSearch, raw query (k?.getD top_k) = Except.ok [] →
      similarity_search (some raw) threshold top_k query k? = []) ∧
    (∀ (raw : RawSearch) (rs : List (Doc × ℚ)),
      raw query (k?.getD top_k) = Except.ok rs →
      (rs.length ≤ k?.getD top_k →
        (similarity_search (some raw) threshold top_k query k?).length
          ≤ k?.getD top_k) ∧
      (∀ doc ∈ similarity_search (some raw) threshold top_k query k?,
        ∃ score, (doc, score) ∈ rs ∧ threshold ≤ 1 - score)) := by
  refine ⟨rfl, ?_, ?_, ?_⟩
  · intro raw e h
    simp [similarity_search, h]
  · intro raw h
    simp [similarity_search, h]
  · intro raw rs h
    constructor
    · intro hlen
      simp only [similarity_search, h]
      calc ((rs.filter (fun p => p.2 ≤ 1 - threshold)).map Prod.fst).length
          = (rs.filter (fun p => p.2 ≤ 1 - threshold)).length :=
            List.length_map _ _
        _ ≤ rs.length := List.length_filter_le _ _
        _ ≤ k?.getD top_k := hlen
    · intro doc hdoc
      simp only [similarity_search, h] at hdoc
      obtain ⟨p, hp, hfst⟩ := List.mem_map.mp hdoc
      obtain ⟨hpmem, hple⟩ := List.mem_filter.mp hp
      have hple' : p.2 ≤ 1 - threshold := by simpa using hple
      have hpmem' : (p.1, p.2) ∈ rs := by simpa using hpmem
      exact ⟨p.2, hfst ▸ hpmem', by linarith⟩

/-- C9 witness: a backend returning two scored documents under
threshold 1/2 and k = 2; the uninitialized store returns `[]` and the
result stays within the bound. -/
theorem c9_similarity_search_bounds_witness :
    similarity_search none (1/2 : ℚ) 2 "q" none = [] ∧
    (similarity_search
      (some (fun _ _ => Except.ok [((⟨"a"⟩ : Doc), (0 : ℚ)), (⟨"b"⟩, 3/4)]))
      (1/2) 2 "q" none).length ≤ 2 :=
  ⟨(c9_similarity_search_bounds (1/2) 2 "q" none).1,
   ((c9_similarity_search_bounds (1/2) 2 "q" none).2.2.2
      (fun _ _ => Except.ok [((⟨"a"⟩ : Doc), (0 : ℚ)), (⟨"b"⟩, 3/4)])
      [((⟨"a"⟩ : Doc), (0 : ℚ)), (⟨"b"⟩, 3/4)] rfl).1 (by decide)⟩

/-! ## Claim C10 -/

/-- C10: whenever the retrieval result's data contains a
`leave_statistics` entry produced by `calculate_leave_statistics`
(which only emits the key `average_pto_balance`),
`format_retrieved_information` — and therefore `get_context_for_query`,
whose data gains that entry for any query containing "pto" (or
"employee"/"balance"/"leave") — aborts with `KeyError: 'average_pto'`;
`format_context_for_prompt`'s data-summary branch reads the same
missing key. -/
theorem c10_average_pto_keyerror :
    (∀ (r : RetrieveResults) (d : Data) (dd : List (String × DataVal)),
      r.error = none → r.data = some dd →
      dd.lookup "leave_statistics"
        = some (DataVal.stats (calculate_leave_statistics d)) →
      format_retrieved_information r = Except.error "average_pto") ∧
    (∀ (q : String) (docs : List Doc),
      hasAnyKW (lowerStr q) ["employee", "balance", "pto", "leave"] = true →
      get_context_for_query (Except.ok docs) q
        = Except.error "average_pto") ∧
    (∀ (d : Data) (dd : List (String × DataVal)),
      dd.lookup "leave_statistics"
        = some (DataVal.stats (calculate_leave_statistics d)) →
      format_context_for_prompt "data_summary" dd
        = Except.error "average_pto") := by
  have h1 : ∀ (r : RetrieveResults) (d : Data)
      (dd : List (String × DataVal)),
      r.error = none → r.data = some dd →
      dd.lookup "leave_statistics"
        = some (DataVal.stats (calculate_leave_statistics d)) →
      format_retrieved_information r = Except.error "average_pto" := by
    intro r d dd herr hdata hlook
    obtain ⟨docs?, data?, q?, td?, tde?, err?⟩ := r
    dsimp only at herr hdata
    subst herr
    subst hdata
    unfold format_retrieved_information
    dsimp only [Option.getD_some]
    rw [hlook]
    rfl
  have h3 : ∀ (d : Data) (dd : List (String × DataVal)),
      dd.lookup "leave_statistics"
        = some (DataVal.stats (calculate_leave_statistics d)) →
      format_context_for_prompt "data_summary" dd
        = Except.error "average_pto" := by
    intro d dd hlook
    have hstep : format_context_for_prompt "data_summary" dd =
        (match dd.lookup "leave_statistics" with
         | some (DataVal.stats st) => do
           let te ← pyLookup "total_employees" st
           let ap ← pyLookup "average_pto" st
           let tp ← pyLookup "total_pto_days" st
           let pr ← pyLookup "pending_requests" st
           let ar ← pyLookup "approved_requests" st
           Except.ok ("\nTotal Employees: " ++ pyValStr te ++
             "\nAverage PTO Balance: " ++ pyValStr ap ++ " days" ++
             "\nTotal PTO Days: " ++ pyValStr tp ++
             "\nPending Requests: " ++ pyValStr pr ++
             "\nApproved Requests: " ++ pyValStr ar ++ "\n")
         | _ => Except.ok "Data summary not available.") := rfl
    rw [hstep, hlook]
    rfl
  refine ⟨h1, ?_, h3⟩
  intro q docs hkw
  have hlk : (extract_relevant_data create_sample_data q).lookup
      "leave_statistics"
      = some (DataVal.stats (calculate_leave_statistics
          create_sample_data)) := by
    unfold extract_relevant_data
    dsimp only
    rw [hkw]
    rfl
  exact h1 (retrieve_relevant_documents (Except.ok docs) q)
    create_sample_data (extract_relevant_data create_sample_data q)
    rfl rfl hlk

/-- C10 witness: the concrete query "pto" with an empty document list
hits the `KeyError` in the pipeline, and the data-summary formatter
fails on the sample statistics. -/
theorem c10_average_pto_keyerror_witness :
    get_context_for_query (Except.ok []) "pto"
        = Except.error "average_pto" ∧
    format_context_for_prompt "data_summary"
        [("leave_statistics",
          DataVal.stats (calculate_leave_statistics create_sample_data))]
        = Except.error "average_pto" :=
  ⟨c10_average_pto_keyerror.2.1 "pto" [] (by decide),
   c10_average_pto_keyerror.2.2 create_sample_data
     [("leave_statistics",
       DataVal.stats (calculate_leave_statistics create_sample_data))] rfl⟩

/-! ## Claim C8 -/

/-- C8: a query matching a Holiday keyword and no other extraction
rule's keywords (no statistics keyword, no `emp` substring — hence no
`emp\d+` id pattern —, no request keyword, no policy keyword) yields a
data dictionary with exactly one entry: the full sample holiday table
in its stored order. -/
theorem c8_holiday_only_query (q : String) (docs : List Doc)
    (hhol : hasAnyKW (lowerStr q)
      ["holiday", "holidays", "christmas", "thanksgiving"] = true)
    (hstats : hasAnyKW (lowerStr q)
      ["employee", "balance", "pto", "leave"] = false)
    (hemp : inStr "emp" (lowerStr q) = false)
    (hreq : hasAnyKW (lowerStr q)
      ["request", "approval", "pending", "approved"] = false)
    (hpol : hasAnyKW (lowerStr q)
      ["policy", "rules", "guidelines"] = false) :
    (retrieve_relevant_documents (Except.ok docs) q).data
      = some [("holidays", DataVal.hols create_sample_data.holidays)] ∧
    create_sample_data.holidays = [
      ⟨"New Year's Day", "2024-01-01", true⟩,
      ⟨"Martin Luther King Jr. Day", "2024-01-15", true⟩,
      ⟨"Memorial Day", "2024-05-27", true⟩,
      ⟨"Independence Day", "2024-07-04", true⟩,
      ⟨"Labor Day", "2024-09-02", true⟩,
      ⟨"Thanksgiving Day", "2024-11-28", true⟩,
      ⟨"Christmas Day", "2024-12-25", true⟩] := by
  have hempl : inStr "employee" (lowerStr q) = false := by
    have h := hstats
    simp [hasAnyKW] at h
    exact h.1
  constructor
  · show some (extract_relevant_data create_sample_data q) = _
    unfold extract_relevant_data
    dsimp only
    rw [hstats, hhol, hreq, hpol, hemp, hempl]
    rfl
  · rfl

/-- C8 witness: the query "christmas" matches only the Holiday rule,
so the composed data is exactly the holiday list. -/
theorem c8_holiday_only_query_witness :
    (retrieve_relevant_documents (Except.ok []) "christmas").data
      = some [("holidays", DataVal.hols create_sample_data.holidays)] :=
  (c8_holiday_only_query "christmas" [] (by decide) (by decide)
    (by decide) (by decide) (by decide)).1

/-! ## Claim C6 -/

/-- C6: for every query whose lowercasing contains an `emp\d+` match
`m`, the extracted data's `employee_summary` entry is the summary for
the uppercased id; for a known id that summary is the spec's join (the
employee's row, its first-or-absent balance row, the approved/pending
and total counts, and its up-to-5 most recent requests) and is not the
not-found value; for an unknown id it is the tagged not-found
dictionary — no exception in either case (the embedding is total). -/
theorem c6_employee_summary (q : String) (m : List Char)
    (hm : searchEmp (lowerStr q).data = some m) :
    ((extract_relevant_data create_sample_data q).lookup "employee_summary"
      = some (DataVal.empSummary (get_employee_leave_summary
          (upperStr (String.mk m)) create_sample_data))) ∧
    ((∃ e ∈ create_sample_data.employees,
        e.employee_id = upperStr (String.mk m)) →
      get_employee_leave_summary (upperStr (String.mk m)) create_sample_data
        = specEmployeeSummary (upperStr (String.mk m)) create_sample_data ∧
      get_employee_leave_summary (upperStr (String.mk m)) create_sample_data
        ≠ EmpSummaryResult.notFound) ∧
    ((∀ e ∈ create_sample_data.employees,
        e.employee_id ≠ upperStr (String.mk m)) →
      get_employee_leave_summary (upperStr (String.mk m)) create_sample_data
        = EmpSummaryResult.notFound) := by
  refine ⟨?_, ?_, ?_⟩
  · have hsub : inStr "emp" (lowerStr q) = true := searchEmp_subList_emp hm
    have hguard : (inStr "emp" (lowerStr q) || inStr "employee" (lowerStr q))
        = true := by rw [hsub]; rfl
    unfold extract_relevant_data
    dsimp only
    rw [hguard, hm]
    cases hb1 : hasAnyKW (lowerStr q) ["employee", "balance", "pto", "leave"]
      <;> rfl
  · intro hex
    obtain ⟨e, he, heid⟩ := hex
    simp only [create_sample_data, List.mem_cons, List.not_mem_nil,
      or_false] at he
    rcases he with h | h | h | h | h <;>
      (subst h; rw [← heid];
       exact ⟨rfl, fun hcon => EmpSummaryResult.noConfusion hcon⟩)
  · intro hall
    simp only [create_sample_data, List.mem_cons, List.not_mem_nil,
      or_false, forall_eq_or_imp, forall_eq] at hall
    obtain ⟨h1, h2, h3, h4, h5⟩ := hall
    have hfil : create_sample_data.employees.filter
        (·.employee_id == upperStr (String.mk m)) = [] := by
      simp [create_sample_data, List.filter,
        beq_eq_false_iff_ne.mpr h1, beq_eq_false_iff_ne.mpr h2,
        beq_eq_false_iff_ne.mpr h3, beq_eq_false_iff_ne.mpr h4,
        beq_eq_false_iff_ne.mpr h5]
    unfold get_employee_leave_summary
    rw [hfil]

/-- C6 witness: the query "tell me about EMP001" matches `emp001`, a
known id, and "who is emp999" matches an unknown id. -/
theorem c6_employee_summary_witness :
    ((extract_relevant_data create_sample_data "tell me about EMP001").lookup
        "employee_summary"
      = some (DataVal.empSummary (get_employee_leave_summary "EMP001"
          create_sample_data))) ∧
    (get_employee_leave_summary "EMP001" create_sample_data
      = specEmployeeSummary "EMP001" create_sample_data) ∧
    (get_employee_leave_summary "EMP999" create_sample_data
      = EmpSummaryResult.notFound) :=
  ⟨(c6_employee_summary "tell me about EMP001"
      ['e', 'm', 'p', '0', '0', '1'] (by decide)).1,
   ((c6_employee_summary "tell me about EMP001"
      ['e', 'm', 'p', '0', '0', '1'] (by decide)).2.1
      ⟨⟨"EMP001", "John Smith", "Engineering", "2020-01-15", "Full-time"⟩,
        by decide, by decide⟩).1,
   (c6_employee_summary "who is emp999"
      ['e', 'm', 'p', '9', '9', '9'] (by decide)).2.2 (by decide)⟩

/-! ## Claim C4 -/

/-- C4 counterexample: a Process-category query ("process") whose
retrieval result carries three documents renders an empty context —
the first three documents are not substituted (the advisor hands the
formatter only `result.data`, which never contains a `documents` key),
and the output contains no "not available" placeholder either. -/
theorem c4_process_context_is_empty :
    (select_chain_and_format_context "process"
      { documents := some [⟨"alpha"⟩, ⟨"beta"⟩, ⟨"gamma"⟩],
        data := some [], query := some "process",
        total_documents := some 3, total_data_entries := some 0,
        error := none }).2 = Except.ok "" ∧
    (Except.ok "" : Except String String)
      ≠ Except.ok (String.intercalate "\n\n" ["alpha", "beta", "gamma"]) ∧
    inStr "not available" "" = false := by
  refine ⟨rfl, ?_, rfl⟩
  intro h
  injection h with h'
  exact absurd h' (by decide)

/-- C4 amended: the advisor passes only `result.data` to
`format_context_for_prompt`, and the extraction never emits a
`documents` key, so Policy- and Process-category contexts render as the
empty string in the advisor path (no documents are substituted and no
"not available" placeholder appears); given a mapping that does carry
documents, the policy branch joins the first three and the process
branch only the first two; for the employee-data, holiday-data and
data-summary categories an absent expected key renders the literal
"... not available." message, without failing. -/
theorem c4_context_formatting :
    (∀ (d : Data) (q : String),
      (extract_relevant_data d q).lookup "documents" = none) ∧
    (∀ cd : List (String × DataVal), cd.lookup "documents" = none →
      format_context_for_prompt "policy_docs" cd = Except.ok "" ∧
      format_context_for_prompt "process_docs" cd = Except.ok "") ∧
    (∀ ds : List Doc,
      format_context_for_prompt "policy_docs"
          [("documents", DataVal.docs ds)]
        = Except.ok (String.intercalate "\n\n"
            ((ds.take 3).map (·.page_content))) ∧
      format_context_for_prompt "process_docs"
          [("documents", DataVal.docs ds)]
        = Except.ok (String.intercalate "\n\n"
            ((ds.take 2).map (·.page_content)))) ∧
    (∀ cd : List (String × DataVal),
      (cd.lookup "employee_summary" = none →
        format_context_for_prompt "employee_data" cd
          = Except.ok "Employee data not available.") ∧
      (cd.lookup "holidays" = none →
        format_context_for_prompt "holiday_data" cd
          = Except.ok "Holiday data not available.") ∧
      (cd.lookup "leave_statistics" = none →
        format_context_for_prompt "data_summary" cd
          = Except.ok "Data summary not available.")) ∧
    (∀ (q : String) (docs : List Doc),
      (chainContextKey q = "policy_docs" ∨
       chainContextKey q = "process_docs") →
      (select_chain_and_format_context q
        (retrieve_relevant_documents (Except.ok docs) q)).2
        = Except.ok "") := by
  have ha : ∀ (d : Data) (q : String),
      (extract_relevant_data d q).lookup "documents" = none := by
    intro d q
    unfold extract_relevant_data
    dsimp only
    rw [lookup_append, lookup_append, lookup_append, lookup_append]
    cases hasAnyKW (lowerStr q) ["employee", "balance", "pto", "leave"] <;>
      cases (inStr "emp" (lowerStr q) || inStr "employee" (lowerStr q)) <;>
      cases hasAnyKW (lowerStr q)
        ["holiday", "holidays", "christmas", "thanksgiving"] <;>
      cases hasAnyKW (lowerStr q)
        ["request", "approval", "pending", "approved"] <;>
      cases hasAnyKW (lowerStr q) ["policy", "rules", "guidelines"] <;>
      first
        | rfl
        | (cases searchEmp (lowerStr q).data <;> rfl)
  have hb : ∀ cd : List (String × DataVal), cd.lookup "documents" = none →
      format_context_for_prompt "policy_docs" cd = Except.ok "" ∧
      format_context_for_prompt "process_docs" cd = Except.ok "" := by
    intro cd h
    constructor
    · rw [show format_context_for_prompt "policy_docs" cd
          = Except.ok (String.intercalate "\n\n"
              (((ctxDocs (cd.lookup "documents")).take 3).map
                (·.page_content))) from rfl, h]
      rfl
    · rw [show format_context_for_prompt "process_docs" cd
          = Except.ok (String.intercalate "\n\n"
              (((ctxDocs (cd.lookup "documents")).take 2).map
                (·.page_content))) from rfl, h]
      rfl
  refine ⟨ha, hb, fun ds => ⟨rfl, rfl⟩, ?_, ?_⟩
  · intro cd
    refine ⟨?_, ?_, ?_⟩
    · intro h
      rw [show format_context_for_prompt "employee_data" cd
          = (match cd.lookup "employee_summary" with
             | some (DataVal.empSummary (EmpSummaryResult.found s)) =>
               Except.ok ("\nEmployee: " ++ s.employee_info.name ++
                 "\nDepartment: " ++ s.employee_info.department ++
                 "\nPTO Balance: " ++
                   (match s.leave_balance with
                    | some b => toString b.pto_balance
                    | none => "N/A") ++ " days" ++
                 "\nSick Balance: " ++
                   (match s.leave_balance with
                    | some b => toString b.sick_balance
                    | none => "N/A") ++ " days" ++
                 "\nPersonal Balance: " ++
                   (match s.leave_balance with
                    | some b => toString b.personal_balance
                    | none => "N/A") ++ " days" ++
                 "\nTotal Requests: " ++ toString s.total_requests ++
                 "\nPending Requests: " ++ toString s.pending_requests
                 ++ "\n")
             | _ => Except.ok "Employee data not available.") from rfl, h]
    · intro h
      rw [show format_context_for_prompt "holiday_data" cd
          = (match cd.lookup "holidays" with
             | some (DataVal.hols hs) =>
               Except.ok (String.intercalate "\n"
                 (hs.map (fun h => h.holiday_name ++ ": " ++ h.date)))
             | _ => Except.ok "Holiday data not available.") from rfl, h]
    · intro h
      rw [show format_context_for_prompt "data_summary" cd
          = (match cd.lookup "leave_statistics" with
             | some (DataVal.stats st) => do
               let te ← pyLookup "total_employees" st
               let ap ← pyLookup "average_pto" st
               let tp ← pyLookup "total_pto_days" st
               let pr ← pyLookup "pending_requests" st
               let ar ← pyLookup "approved_requests" st
               Except.ok ("\nTotal Employees: " ++ pyValStr te ++
                 "\nAverage PTO Balance: " ++ pyValStr ap ++ " days" ++
                 "\nTotal PTO Days: " ++ pyValStr tp ++
                 "\nPending Requests: " ++ pyValStr pr ++
                 "\nApproved Requests: " ++ pyValStr ar ++ "\n")
             | _ => Except.ok "Data summary not available.") from rfl, h]
  · intro q docs hkey
    have hdata : (retrieve_relevant_documents (Except.ok docs) q).data.getD []
        = extract_relevant_data create_sample_data q := rfl
    show format_context_for_prompt (chainContextKey q)
      ((retrieve_relevant_documents (Except.ok docs) q).data.getD [])
      = Except.ok ""
    rcases hkey with hk | hk
    · rw [hdata, hk]
      exact (hb _ (ha _ _)).1
    · rw [hdata, hk]
      exact (hb _ (ha _ _)).2

/-- C4 witness: on the query "what is the policy" (Policy category)
the advisor path renders the empty context; a direct mapping with
three documents shows policy's three-document and process's
two-document slices; and the absent-key placeholders render. -/
theorem c4_context_formatting_witness :
    ((select_chain_and_format_context "what is the policy"
        (retrieve_relevant_documents (Except.ok [⟨"a"⟩, ⟨"b"⟩, ⟨"c"⟩])
          "what is the policy")).2 = Except.ok "") ∧
    (format_context_for_prompt "process_docs"
        [("documents", DataVal.docs [⟨"a"⟩, ⟨"b"⟩, ⟨"c"⟩])]
      = Except.ok (String.intercalate "\n\n"
          (([(⟨"a"⟩ : Doc), ⟨"b"⟩, ⟨"c"⟩].take 2).map (·.page_content)))) ∧
    (format_context_for_prompt "data_summary" []
      = Except.ok "Data summary not available.") :=
  ⟨c4_context_formatting.2.2.2.2 "what is the policy" [⟨"a"⟩, ⟨"b"⟩, ⟨"c"⟩]
      (Or.inl (by decide)),
   (c4_context_formatting.2.2.1 [⟨"a"⟩, ⟨"b"⟩, ⟨"c"⟩]).2,
   (c4_context_formatting.2.2.2.1 []).2.2 rfl⟩
